import Mathlib

/-!
# Verification of the vPoller C client retry/reconnect core

This development embeds the "lazy pirate" retry loop shared by the C
clients of the py-vpoller repository:

* `src/extra/vpoller-cclient/vpoller-cclient.c`, `main`, lines 204-266
* `src/extra/zabbix/vpoller-module/vpoller.c`, `zbx_module_vpoller`,
  lines 262-335
* `src/src/vpoller-cclient/vpoller-cclient.c`, `main`, lines 185-259
* `src/src/vpoller-cclient/vmpoller-cclient.c`, `main`, lines 206-279
* `src/src/zabbix/vpoller-module/vpoller.c`, `zbx_module_vpoller`,
  lines 208-287

All five share the identical loop structure:

    while (retries > 0) {
      zmq_send(zsocket, msg_buf, strlen(msg_buf), 0);
      zmq_poll(items, 1, timeout);
      if (items[0].revents & ZMQ_POLLIN) {
        if ((msg_len = zmq_msg_recv(&msg_in, zsocket, 0)) != -1) {
          ... consume reply ...; break;
        }
      } else {
        retries--;
        zmq_close(zsocket);
        if ((zsocket = zmq_socket(zcontext, ZMQ_REQ)) == NULL) { ... fatal ... }
        zmq_connect(zsocket, endpoint);
        zmq_setsockopt(zsocket, ZMQ_LINGER, &linger, sizeof(linger));
      }
    }

The embedding drives the loop with an environment oracle: for every loop
iteration the oracle says whether `zmq_poll` timed out, or reported the
socket readable with `zmq_msg_recv` failing, or readable with a reply
received; a second oracle says whether each `zmq_socket` call succeeds.
The run records a trace of transport events (session creation, send,
poll, receive, close), the final value of the C `retries` variable, and
the outcome of the run.
-/

/-- What one loop iteration observes from the transport:
`zmq_poll` elapses with nothing readable; or the socket is readable but
`zmq_msg_recv` returns -1; or a reply with the given bytes is received. -/
inductive PollOutcome
  | timeout
  | readyRecvFail
  | readyRecvOk (reply : List Nat)
deriving Repr, DecidableEq

/-- Transport events recorded by a run.  Sessions (ZeroMQ REQ sockets)
are numbered in order of creation; `openEv i` is the successful creation
of session `i`, `openFailEv i` a `zmq_socket` call for would-be session
`i` returning NULL. -/
inductive Ev
  | openEv (sid : Nat)
  | openFailEv (sid : Nat)
  | sendEv (sid : Nat) (payload : List Nat)
  | pollEv (sid : Nat) (ready : Bool)
  | recvEv (sid : Nat) (ok : Bool)
  | closeEv (sid : Nat)
deriving Repr, DecidableEq

/-- How a run ends: a reply was delivered, the retry budget was
exhausted with no reply, session creation failed (the C code returns
EX_PROTOCOL resp. SYSINFO_RET_FAIL), or the model's fuel ran out before
the loop ended (a model artifact, not a program outcome). -/
inductive LoopEnd
  | delivered (reply : List Nat)
  | exhausted
  | fatalOpen
  | fuelOut
deriving Repr, DecidableEq

/-- Result of a run: the event trace, the final value of the C `retries`
variable, and how the run ended. -/
structure RunOut where
  trace : List Ev
  left : Int
  outcome : LoopEnd
deriving Repr, DecidableEq

/-- The retry loop `while (retries > 0) { ... }` common to all five C
variants (see the module header).  `env` gives each iteration's poll
observation, `openOk i` whether the `zmq_socket` call creating session
`i` succeeds.  `sid` is the id of the current session, `iter` the
iteration counter, and `fuel` bounds the recursion depth (the loop is
not structurally bounded: the readable-but-recv-fails path repeats
without decrementing `retries`).  Event order within an iteration
follows the C statement order: send, poll, then either recv (readable
case) or close-and-reopen (timeout case, where `retries--` precedes the
close).  The `break` on a successful recv leads to the common epilogue
`zmq_close(zsocket)`, recorded here as the trailing close event, as is
the close in the epilogue of the exhausted exit. -/
def lazyLoop (env : Nat → PollOutcome) (openOk : Nat → Bool) (payload : List Nat) :
    Nat → Int → Nat → Nat → RunOut
  | 0, retries, sid, _ =>
      if 0 < retries then
        { trace := [], left := retries, outcome := .fuelOut }
      else
        { trace := [.closeEv sid], left := retries, outcome := .exhausted }
  | fuel + 1, retries, sid, iter =>
      if 0 < retries then
        match env iter with
        | .readyRecvOk reply =>
            { trace := [.sendEv sid payload, .pollEv sid true, .recvEv sid true,
                        .closeEv sid],
              left := retries, outcome := .delivered reply }
        | .readyRecvFail =>
            let r := lazyLoop env openOk payload fuel retries sid (iter + 1)
            { r with trace := .sendEv sid payload :: .pollEv sid true ::
                              .recvEv sid false :: r.trace }
        | .timeout =>
            if openOk (sid + 1) then
              let r := lazyLoop env openOk payload fuel (retries - 1) (sid + 1) (iter + 1)
              { r with trace := .sendEv sid payload :: .pollEv sid false ::
                                .closeEv sid :: .openEv (sid + 1) :: r.trace }
            else
              { trace := [.sendEv sid payload, .pollEv sid false, .closeEv sid,
                          .openFailEv (sid + 1)],
                left := retries - 1, outcome := .fatalOpen }
      else
        { trace := [.closeEv sid], left := retries, outcome := .exhausted }

/-- A whole protocol run: the initial `zmq_socket` call (before the
loop; fatal EX_PROTOCOL return if it yields NULL, with no session to
close), then the retry loop on session 0. -/
def runClient (env : Nat → PollOutcome) (openOk : Nat → Bool) (payload : List Nat)
    (retries : Int) (fuel : Nat) : RunOut :=
  if openOk 0 then
    let r := lazyLoop env openOk payload fuel retries 0 0
    { r with trace := .openEv 0 :: r.trace }
  else
    { trace := [.openFailEv 0], left := retries, outcome := .fatalOpen }

/-- The session id of a send event, if the event is a send. -/
def sendSid : Ev → Option Nat
  | .sendEv sid _ => some sid
  | _ => none

/-- Session ids of the send events of a trace, in order. -/
def sendSids (tr : List Ev) : List Nat :=
  tr.filterMap sendSid

/-- Number of send operations in a trace. -/
def sendCount (tr : List Ev) : Nat :=
  (sendSids tr).length

/-- Whether an event is a successful session creation. -/
def isOpen : Ev → Bool
  | .openEv _ => true
  | _ => false

/-- Number of sessions opened in a trace. -/
def openCount (tr : List Ev) : Nat :=
  (tr.filter isOpen).length

/-- Whether an event is a session close. -/
def isClose : Ev → Bool
  | .closeEv _ => true
  | _ => false

/-- Number of sessions closed in a trace. -/
def closeCount (tr : List Ev) : Nat :=
  (tr.filter isClose).length

/-- Whether an event is a poll window elapsing with no reply ready. -/
def isTimeout : Ev → Bool
  | .pollEv _ ready => !ready
  | _ => false

/-- Number of observed timeouts in a trace. -/
def timeoutCount (tr : List Ev) : Nat :=
  (tr.filter isTimeout).length

/-- A server that never responds: every poll window elapses. -/
def allTimeout : Nat → PollOutcome := fun _ => .timeout

/-- Every `zmq_socket` call succeeds. -/
def allOpensOk : Nat → Bool := fun _ => true

/-- A server that first responds during attempt `k` (1-based):
iterations 0 .. k-2 time out, iteration k-1 delivers `reply`. -/
def respondAt (k : Nat) (reply : List Nat) : Nat → PollOutcome :=
  fun i => if i + 1 = k then .readyRecvOk reply else .timeout

/-- Every poll reports the socket readable but every `zmq_msg_recv`
fails. -/
def recvFailEnv : Nat → PollOutcome := fun _ => .readyRecvFail

/-- `zmq_socket` always fails. -/
def noOpensOk : Nat → Bool := fun _ => false

/-- `zmq_socket` succeeds for sessions with id below `j` only. -/
def opensBelow (j : Nat) : Nat → Bool := fun i => i < j

/-- Expected trace of the loop from session `sid` when every poll times
out and `n` attempts remain: `n` send/timeout/close/reopen rounds, then
the exhausted exit's close of the last (never used) session. -/
def timeoutTrace (payload : List Nat) : Nat → Nat → List Ev
  | sid, 0 => [.closeEv sid]
  | sid, n + 1 =>
      .sendEv sid payload :: .pollEv sid false :: .closeEv sid ::
      .openEv (sid + 1) :: timeoutTrace payload (sid + 1) n

/-- Expected trace of the loop from session `sid` when `n` timeouts
precede a successful receive. -/
def successTrace (payload : List Nat) : Nat → Nat → List Ev
  | sid, 0 => [.sendEv sid payload, .pollEv sid true, .recvEv sid true, .closeEv sid]
  | sid, n + 1 =>
      .sendEv sid payload :: .pollEv sid false :: .closeEv sid ::
      .openEv (sid + 1) :: successTrace payload (sid + 1) n

/-! ## Counting lemmas -/

theorem timeoutCount_cons (e : Ev) (tr : List Ev) :
    timeoutCount (e :: tr) = (if isTimeout e then 1 else 0) + timeoutCount tr := by
  cases h : isTimeout e <;> simp [timeoutCount, List.filter_cons, h] <;> omega

theorem sendSids_cons (e : Ev) (tr : List Ev) :
    sendSids (e :: tr) = (sendSid e).toList ++ sendSids tr := by
  cases e <;> simp [sendSids, sendSid, List.filterMap_cons]

theorem openCount_cons (e : Ev) (tr : List Ev) :
    openCount (e :: tr) = (if isOpen e then 1 else 0) + openCount tr := by
  cases h : isOpen e <;> simp [openCount, List.filter_cons, h] <;> omega

theorem closeCount_cons (e : Ev) (tr : List Ev) :
    closeCount (e :: tr) = (if isClose e then 1 else 0) + closeCount tr := by
  cases h : isClose e <;> simp [closeCount, List.filter_cons, h] <;> omega

/-! ## The never-responding run -/

theorem lazyLoop_allTimeout (payload : List Nat) :
    ∀ (n fuel sid iter : Nat), n ≤ fuel →
      lazyLoop allTimeout allOpensOk payload fuel (n : Int) sid iter =
        { trace := timeoutTrace payload sid n, left := 0, outcome := .exhausted } := by
  intro n
  induction n with
  | zero =>
      intro fuel sid iter _
      cases fuel with
      | zero => simp [lazyLoop, timeoutTrace]
      | succ f => simp [lazyLoop, timeoutTrace]
  | succ n ih =>
      intro fuel sid iter hf
      cases fuel with
      | zero => omega
      | succ f =>
          have hpos : (0 : Int) < ((n + 1 : Nat) : Int) := by
            push_cast
            omega
          have hcast : ((n + 1 : Nat) : Int) - 1 = (n : Int) := by
            push_cast
            ring
          simp only [lazyLoop, if_pos hpos, allTimeout, allOpensOk, if_pos]
          rw [hcast, ih f (sid + 1) (iter + 1) (by omega)]
          simp [timeoutTrace]

theorem runClient_allTimeout (payload : List Nat) (n fuel : Nat) (hf : n ≤ fuel) :
    runClient allTimeout allOpensOk payload (n : Int) fuel =
      { trace := Ev.openEv 0 :: timeoutTrace payload 0 n,
        left := 0, outcome := .exhausted } := by
  simp only [runClient, allOpensOk, if_pos]
  rw [lazyLoop_allTimeout payload n fuel 0 0 hf]

theorem sendSids_timeoutTrace (payload : List Nat) :
    ∀ (n sid : Nat), sendSids (timeoutTrace payload sid n) = List.range' sid n := by
  intro n
  induction n with
  | zero => intro sid; simp [timeoutTrace, sendSids, sendSid, List.filterMap_cons]
  | succ n ih =>
      intro sid
      simp [timeoutTrace, sendSids_cons, sendSid, ih, List.range'_succ]

theorem openCount_timeoutTrace (payload : List Nat) :
    ∀ (n sid : Nat), openCount (timeoutTrace payload sid n) = n := by
  intro n
  induction n with
  | zero => intro sid; simp [timeoutTrace, openCount, List.filter, isOpen]
  | succ n ih => intro sid; simp [timeoutTrace, openCount_cons, isOpen, ih]; omega

theorem closeCount_timeoutTrace (payload : List Nat) :
    ∀ (n sid : Nat), closeCount (timeoutTrace payload sid n) = n + 1 := by
  intro n
  induction n with
  | zero => intro sid; simp [timeoutTrace, closeCount, List.filter, isClose]
  | succ n ih => intro sid; simp [timeoutTrace, closeCount_cons, isClose, ih]; omega

/-! ## The responds-at-attempt-k run -/

theorem lazyLoop_respondAt (payload reply : List Nat) (k : Nat) :
    ∀ (j fuel : Nat) (retries : Int) (sid iter : Nat),
      iter + j + 1 = k → (j : Int) < retries → j < fuel →
      lazyLoop (respondAt k reply) allOpensOk payload fuel retries sid iter =
        { trace := successTrace payload sid j, left := retries - j,
          outcome := .delivered reply } := by
  intro j
  induction j with
  | zero =>
      intro fuel retries sid iter hk hr hf
      cases fuel with
      | zero => omega
      | succ f =>
          have h0 : (0 : Int) < retries := by exact_mod_cast hr
          have henv : respondAt k reply iter = .readyRecvOk reply := by
            simp [respondAt]
            omega
          simp only [lazyLoop, if_pos h0, henv]
          simp [successTrace]
  | succ j ih =>
      intro fuel retries sid iter hk hr hf
      cases fuel with
      | zero => omega
      | succ f =>
          have h0 : (0 : Int) < retries := by
            push_cast at hr
            omega
          have henv : respondAt k reply iter = .timeout := by
            have : iter + 1 ≠ k := by omega
            simp [respondAt, this]
          simp only [lazyLoop, if_pos h0, henv, allOpensOk, if_pos]
          rw [ih f (retries - 1) (sid + 1) (iter + 1) (by omega)
              (by push_cast at hr ⊢; omega) (by omega)]
          have : retries - 1 - (j : Int) = retries - ((j + 1 : Nat) : Int) := by
            push_cast
            ring
          simp [successTrace, this]

theorem runClient_respondAt (payload reply : List Nat) (k fuel : Nat) (retries : Int)
    (hk : 1 ≤ k) (hr : (k : Int) ≤ retries) (hf : k ≤ fuel) :
    runClient (respondAt k reply) allOpensOk payload retries fuel =
      { trace := Ev.openEv 0 :: successTrace payload 0 (k - 1),
        left := retries - (k - 1 : Nat), outcome := .delivered reply } := by
  simp only [runClient, allOpensOk, if_pos]
  rw [lazyLoop_respondAt payload reply k (k - 1) fuel retries 0 0 (by omega)
      (by push_cast at hr ⊢; omega) (by omega)]

theorem sendSids_successTrace (payload : List Nat) :
    ∀ (n sid : Nat), sendSids (successTrace payload sid n) = List.range' sid (n + 1) := by
  intro n
  induction n with
  | zero =>
      intro sid
      simp [successTrace, sendSids, sendSid, List.filterMap_cons, List.range'_succ]
  | succ n ih =>
      intro sid
      simp [successTrace, sendSids_cons, sendSid, ih, List.range'_succ]

theorem openCount_successTrace (payload : List Nat) :
    ∀ (n sid : Nat), openCount (successTrace payload sid n) = n := by
  intro n
  induction n with
  | zero => intro sid; simp [successTrace, openCount, List.filter, isOpen]
  | succ n ih => intro sid; simp [successTrace, openCount_cons, isOpen, ih]; omega

theorem closeCount_successTrace (payload : List Nat) :
    ∀ (n sid : Nat), closeCount (successTrace payload sid n) = n + 1 := by
  intro n
  induction n with
  | zero => intro sid; simp [successTrace, closeCount, List.filter, isClose]
  | succ n ih => intro sid; simp [successTrace, closeCount_cons, isClose, ih]; omega

/-! ## Budget accounting and fatal-run shape -/

theorem lazyLoop_left (env : Nat → PollOutcome) (openOk : Nat → Bool) (payload : List Nat) :
    ∀ (fuel : Nat) (retries : Int) (sid iter : Nat),
      (lazyLoop env openOk payload fuel retries sid iter).left =
        retries - timeoutCount (lazyLoop env openOk payload fuel retries sid iter).trace := by
  intro fuel
  induction fuel with
  | zero =>
      intro retries sid iter
      by_cases h : (0 : Int) < retries <;>
        simp [lazyLoop, h, timeoutCount, List.filter, isTimeout]
  | succ f ih =>
      intro retries sid iter
      by_cases h : (0 : Int) < retries
      · simp only [lazyLoop, if_pos h]
        cases henv : env iter with
        | readyRecvOk reply =>
            simp [timeoutCount, List.filter, isTimeout]
        | readyRecvFail =>
            have := ih retries sid (iter + 1)
            simp [timeoutCount_cons, isTimeout, this]
        | timeout =>
            by_cases ho : openOk (sid + 1) = true
            · have := ih (retries - 1) (sid + 1) (iter + 1)
              simp [ho, timeoutCount_cons, isTimeout, this]
              omega
            · simp [ho, timeoutCount, List.filter, isTimeout]
      · simp [lazyLoop, h, timeoutCount, List.filter, isTimeout]

theorem runClient_left (env : Nat → PollOutcome) (openOk : Nat → Bool) (payload : List Nat)
    (retries : Int) (fuel : Nat) :
    (runClient env openOk payload retries fuel).left =
      retries - timeoutCount (runClient env openOk payload retries fuel).trace := by
  by_cases h : openOk 0 = true
  · simp only [runClient, if_pos h]
    simp [timeoutCount_cons, isTimeout, lazyLoop_left]
  · simp [runClient, h, timeoutCount, List.filter, isTimeout]

theorem lazyLoop_fatal_shape (env : Nat → PollOutcome) (openOk : Nat → Bool)
    (payload : List Nat) :
    ∀ (fuel : Nat) (retries : Int) (sid iter : Nat),
      (lazyLoop env openOk payload fuel retries sid iter).outcome = .fatalOpen →
      ∃ j tr',
        (lazyLoop env openOk payload fuel retries sid iter).trace =
          tr' ++ [Ev.openFailEv j] := by
  intro fuel
  induction fuel with
  | zero =>
      intro retries sid iter h
      by_cases hr : (0 : Int) < retries <;> simp [lazyLoop, hr] at h
  | succ f ih =>
      intro retries sid iter h
      by_cases hr : (0 : Int) < retries
      · cases henv : env iter with
        | readyRecvOk reply =>
            simp [lazyLoop, hr, henv] at h
        | readyRecvFail =>
            simp only [lazyLoop, if_pos hr, henv] at h ⊢
            obtain ⟨j, tr', htr⟩ := ih retries sid (iter + 1) h
            exact ⟨j, Ev.sendEv sid payload :: Ev.pollEv sid true ::
                      Ev.recvEv sid false :: tr', by simp [htr]⟩
        | timeout =>
            by_cases ho : openOk (sid + 1) = true
            · simp only [lazyLoop, if_pos hr, henv, if_pos ho] at h ⊢
              obtain ⟨j, tr', htr⟩ := ih (retries - 1) (sid + 1) (iter + 1) h
              exact ⟨j, Ev.sendEv sid payload :: Ev.pollEv sid false ::
                        Ev.closeEv sid :: Ev.openEv (sid + 1) :: tr', by simp [htr]⟩
            · simp only [lazyLoop, if_pos hr, henv, if_neg ho] at h ⊢
              exact ⟨sid + 1, [.sendEv sid payload, .pollEv sid false, .closeEv sid], by simp⟩
      · simp [lazyLoop, hr] at h

theorem runClient_fatal_shape (env : Nat → PollOutcome) (openOk : Nat → Bool)
    (payload : List Nat) (retries : Int) (fuel : Nat)
    (h : (runClient env openOk payload retries fuel).outcome = .fatalOpen) :
    ∃ j tr',
      (runClient env openOk payload retries fuel).trace = tr' ++ [Ev.openFailEv j] := by
  by_cases h0 : openOk 0 = true
  · simp only [runClient, if_pos h0] at h ⊢
    obtain ⟨j, tr', htr⟩ := lazyLoop_fatal_shape env openOk payload fuel retries 0 0 h
    exact ⟨j, Ev.openEv 0 :: tr', by simp [htr]⟩
  · simp only [runClient, if_neg h0]
    exact ⟨0, [], by simp⟩

/-! ## Caller surface

Exit codes from sysexits.h used by the two standalone clients, and the
Zabbix module's agent result codes.  The sysexits.h values are the
standard BSD ones; SYSINFO_RET_OK / SYSINFO_RET_FAIL come from Zabbix's
module.h, which is not part of this repository - only their distinctness
matters here, and the values used are Zabbix's conventional 0 / 1. -/

def EX_OK : Nat := 0
def EX_UNAVAILABLE : Nat := 69
def EX_OSERR : Nat := 71
def EX_PROTOCOL : Nat := 76
def SYSINFO_RET_OK : Nat := 0
def SYSINFO_RET_FAIL : Nat := 1

/-- Process exit code of `src/src/vpoller-cclient/vpoller-cclient.c` and
`src/extra/vpoller-cclient/vpoller-cclient.c`: `rc` starts as EX_OK, is
set to EX_UNAVAILABLE when no reply was obtained (lines 248-250 resp.
255-257), and the socket-creation failure paths return EX_PROTOCOL.
`fuelOut` is a model artifact and is mapped to EX_OK. -/
def vpollerExitCode : LoopEnd → Nat
  | .delivered _ => EX_OK
  | .exhausted => EX_UNAVAILABLE
  | .fatalOpen => EX_PROTOCOL
  | .fuelOut => EX_OK

/-- Process exit code of `src/src/vpoller-cclient/vmpoller-cclient.c`:
`rc` starts as EX_OK (line 114) and is never assigned on the no-reply
path (lines 272-274 only print a message), so the exhausted run also
returns EX_OK; the socket-creation failure paths return EX_PROTOCOL. -/
def vmpollerExitCode : LoopEnd → Nat
  | .delivered _ => EX_OK
  | .exhausted => EX_OK
  | .fatalOpen => EX_PROTOCOL
  | .fuelOut => EX_OK

/-- Agent result code of the two Zabbix module variants
(`zbx_module_vpoller`): SYSINFO_RET_OK on a delivered reply,
SYSINFO_RET_FAIL both when no reply was obtained and when socket
creation fails. -/
def zabbixRetCode : LoopEnd → Nat
  | .delivered _ => SYSINFO_RET_OK
  | .exhausted => SYSINFO_RET_FAIL
  | .fatalOpen => SYSINFO_RET_FAIL
  | .fuelOut => SYSINFO_RET_OK

/-! ## Reply delivery to the consumer -/

/-- Bytes handed to the Reply Consumer by the C clients.  All variants
hand the reply over as a C string: `printf("%s\n", ...)` on
`zmq_msg_data(&msg_in)` in `src/extra/vpoller-cclient/vpoller-cclient.c`
line 259, `strdup(zmq_msg_data(&msg_in))` in
`src/extra/zabbix/vpoller-module/vpoller.c` line 330, and
`printf("%s\n", result)` / `strdup(vpoller_result)` in the `src/src`
variants after `result[msg_len] = 0`.  Reading a C string scans memory
from the start of the reply up to the first NUL byte; `trailing` models
the transport-owned memory that follows the reply bytes (the `src/src`
variants store a NUL there, so for them `trailing` begins with 0; the
`extra` variants store nothing, leaving `trailing` arbitrary). -/
def consumerBytes (reply trailing : List Nat) : List Nat :=
  (reply ++ trailing).takeWhile (fun b => b != 0)

theorem takeWhile_append_of_not_mem (l r : List Nat) (h : 0 ∉ l) :
    (l ++ r).takeWhile (fun b => b != 0) = l ++ r.takeWhile (fun b => b != 0) := by
  induction l with
  | nil => simp
  | cons a t ih =>
      have ha : a ≠ 0 := by intro e; exact h (by simp [e])
      have ht : 0 ∉ t := by intro m; exact h (by simp [m])
      simp [List.takeWhile_cons, ha, ih ht]

theorem takeWhile_append_of_mem (l r : List Nat) (h : 0 ∈ l) :
    (l ++ r).takeWhile (fun b => b != 0) = l.takeWhile (fun b => b != 0) := by
  induction l with
  | nil => simp at h
  | cons a t ih =>
      by_cases ha : a = 0
      · simp [List.takeWhile_cons, ha]
      · have ht : 0 ∈ t := by
          rcases List.mem_cons.mp h with e | m
          · exact absurd e.symm ha
          · exact m
        simp [List.takeWhile_cons, ha, ih ht]

theorem takeWhile_ne_self_of_mem (l : List Nat) (h : 0 ∈ l) :
    l.takeWhile (fun b => b != 0) ≠ l := by
  induction l with
  | nil => simp at h
  | cons a t ih =>
      by_cases ha : a = 0
      · simp [List.takeWhile_cons, ha]
      · have ht : 0 ∈ t := by
          rcases List.mem_cons.mp h with e | m
          · exact absurd e.symm ha
          · exact m
        simp [List.takeWhile_cons, ha]
        exact ht

/-! ## Receive-buffer handling of the src variants (memory model)

`src/src/vpoller-cclient/vpoller-cclient.c` lines 212-226,
`src/src/vpoller-cclient/vmpoller-cclient.c` lines 233-247 and
`src/src/zabbix/vpoller-module/vpoller.c` lines 238-252 all execute, on
a successful receive:

    result = malloc(msg_len + 1);        (fatal EX_OSERR if NULL)
    result = zmq_msg_data(&msg_in);
    result[msg_len] = 0;
    break;

modelled below with an explicit store: a heap of malloc'd buffers (byte
`none` = never written), the transport-owned message memory, and the
`result` pointer. -/

/-- A value of the C pointer variable `result` / `vpoller_result`. -/
inductive Ptr
  | nullPtr
  | allocPtr (id : Nat)
  | msgDataPtr
deriving Repr, DecidableEq

/-- Memory state: the `result` pointer, the malloc'd buffers (id paired
with contents; a byte is `none` until first written), the ids passed to
free (the source never frees), and the transport-owned memory starting
at `zmq_msg_data(&msg_in)` (the reply bytes followed by whatever
adjacent transport memory holds). -/
structure CMem where
  result : Ptr
  heap : List (Nat × List (Option Nat))
  freedIds : List Nat
  msgMem : List Nat
deriving Repr, DecidableEq

/-- `result = malloc(size)`: allocates a fresh buffer of `size`
uninitialized bytes and points `result` at it. -/
def mallocStep (m : CMem) (size : Nat) : CMem :=
  { m with result := .allocPtr m.heap.length,
           heap := m.heap ++ [(m.heap.length, List.replicate size none)] }

/-- `result = zmq_msg_data(&msg_in)`: repoints `result` at the
transport-owned message memory. -/
def msgDataStep (m : CMem) : CMem :=
  { m with result := .msgDataPtr }

/-- `result[i] = b`: a byte store through the current `result` pointer. -/
def storeByte (m : CMem) (i b : Nat) : CMem :=
  match m.result with
  | .nullPtr => m
  | .allocPtr id =>
      { m with heap := m.heap.map (fun p =>
                 if p.1 = id then (p.1, p.2.set i (some b)) else p) }
  | .msgDataPtr => { m with msgMem := m.msgMem.set i b }

/-- The successful-receive handling of the three src variants (see the
section header), starting from an empty heap with the received reply in
transport memory.  `adjacent` models the transport-owned bytes that
follow the reply (the store at index `msg_len` is one past the reply's
last byte). -/
def recvHandleSrc (reply adjacent : List Nat) : CMem :=
  let m0 : CMem := { result := .nullPtr, heap := [], freedIds := [],
                     msgMem := reply ++ adjacent }
  storeByte (msgDataStep (mallocStep m0 (reply.length + 1))) reply.length 0

theorem set_at_append_boundary (a b : Nat) (t : List Nat) :
    ∀ (l : List Nat), (l ++ a :: t).set l.length b = l ++ b :: t := by
  intro l
  induction l with
  | nil => simp
  | cons x l' ih => simp [List.set, ih]

/-! ## Claims -/

/-- Claim C1: the claim states that a session which has sent the Task
Request without receiving a reply is never used for another send, on
every path, including the path where poll reports the socket readable
but the receive fails.  This theorem evaluates the code at that path:
with every poll readable and every `zmq_msg_recv` failing, the loop
repeats without destroying the session, and the trace contains a second
send on session 0 after a failed receive - the session-id list of the
send events is not duplicate-free. -/
theorem claimC1_resend_on_same_session_after_recv_fail :
    (runClient recvFailEnv allOpensOk [9] 3 2).trace =
      [Ev.openEv 0, Ev.sendEv 0 [9], Ev.pollEv 0 true, Ev.recvEv 0 false,
       Ev.sendEv 0 [9], Ev.pollEv 0 true, Ev.recvEv 0 false] ∧
    ¬ (sendSids (runClient recvFailEnv allOpensOk [9] 3 2).trace).Nodup := by
  constructor
  · decide
  · decide

/-- Claim C2: for retries = N >= 1 and a server that never responds,
the run performs exactly N sends, each send after the first on a freshly
created session (the send session ids are 0, 1, ..., N-1 in order, so no
session from a prior timeout is reused), and ends Exhausted. -/
theorem claimC2_exhaustion_after_n_attempts (N fuel : Nat) (payload : List Nat)
    (hN : 1 ≤ N) (hf : N ≤ fuel) :
    (runClient allTimeout allOpensOk payload (N : Int) fuel).outcome =
        LoopEnd.exhausted ∧
    (runClient allTimeout allOpensOk payload (N : Int) fuel).trace =
        Ev.openEv 0 :: timeoutTrace payload 0 N ∧
    sendSids (runClient allTimeout allOpensOk payload (N : Int) fuel).trace =
        List.range N ∧
    sendCount (runClient allTimeout allOpensOk payload (N : Int) fuel).trace = N := by
  have h := runClient_allTimeout payload N fuel hf
  refine ⟨by rw [h], by rw [h], ?_, ?_⟩
  · rw [h]
    simp [sendSids_cons, sendSid, sendSids_timeoutTrace, List.range_eq_range']
  · rw [h]
    simp [sendCount, sendSids_cons, sendSid, sendSids_timeoutTrace]

theorem claimC2_exhaustion_after_n_attempts_w :
    (runClient allTimeout allOpensOk [7] ((2 : Nat) : Int) 3).outcome =
        LoopEnd.exhausted ∧
    (runClient allTimeout allOpensOk [7] ((2 : Nat) : Int) 3).trace =
        Ev.openEv 0 :: timeoutTrace [7] 0 2 ∧
    sendSids (runClient allTimeout allOpensOk [7] ((2 : Nat) : Int) 3).trace =
        List.range 2 ∧
    sendCount (runClient allTimeout allOpensOk [7] ((2 : Nat) : Int) 3).trace = 2 :=
  claimC2_exhaustion_after_n_attempts 2 3 [7] (by decide) (by decide)

/-- Claim C3: for retries = N and a server that first responds during
attempt k (1 <= k <= N), the run performs exactly k sends (session ids
0, ..., k-1), opens exactly k sessions, delivers the reply, and the
trace ends with the successful receive and close - no further send,
poll, or session creation follows (the full trace is determined). -/
theorem claimC3_delivery_on_attempt_k (N k fuel : Nat) (payload reply : List Nat)
    (hk : 1 ≤ k) (hkN : k ≤ N) (hf : k ≤ fuel) :
    (runClient (respondAt k reply) allOpensOk payload (N : Int) fuel).outcome =
        LoopEnd.delivered reply ∧
    (runClient (respondAt k reply) allOpensOk payload (N : Int) fuel).trace =
        Ev.openEv 0 :: successTrace payload 0 (k - 1) ∧
    sendSids (runClient (respondAt k reply) allOpensOk payload (N : Int) fuel).trace =
        List.range k ∧
    sendCount (runClient (respondAt k reply) allOpensOk payload (N : Int) fuel).trace
        = k ∧
    openCount (runClient (respondAt k reply) allOpensOk payload (N : Int) fuel).trace
        = k := by
  have hr : ((k : Nat) : Int) ≤ (N : Int) := by exact_mod_cast hkN
  have h := runClient_respondAt payload reply k fuel (N : Int) hk hr hf
  have hk1 : k - 1 + 1 = k := by omega
  refine ⟨by rw [h], by rw [h], ?_, ?_, ?_⟩
  · rw [h]
    simp [sendSids_cons, sendSid, sendSids_successTrace, hk1, List.range_eq_range']
  · rw [h]
    simp [sendCount, sendSids_cons, sendSid, sendSids_successTrace, hk1]
  · rw [h]
    simp [openCount_cons, isOpen, openCount_successTrace]
    omega

theorem claimC3_delivery_on_attempt_k_w :
    (runClient (respondAt 2 [5, 6]) allOpensOk [1] ((3 : Nat) : Int) 3).outcome =
        LoopEnd.delivered [5, 6] ∧
    (runClient (respondAt 2 [5, 6]) allOpensOk [1] ((3 : Nat) : Int) 3).trace =
        Ev.openEv 0 :: successTrace [1] 0 (2 - 1) ∧
    sendSids (runClient (respondAt 2 [5, 6]) allOpensOk [1] ((3 : Nat) : Int) 3).trace =
        List.range 2 ∧
    sendCount (runClient (respondAt 2 [5, 6]) allOpensOk [1] ((3 : Nat) : Int) 3).trace
        = 2 ∧
    openCount (runClient (respondAt 2 [5, 6]) allOpensOk [1] ((3 : Nat) : Int) 3).trace
        = 2 :=
  claimC3_delivery_on_attempt_k 3 2 3 [1] [5, 6] (by decide) (by decide) (by decide)

/-- Claim C4, counterexample: the claim says the number of sessions
opened equals the number of send attempts in every run.  With retries =
1 and a server that never responds, the run makes 1 send attempt but
opens 2 sessions: after the final timeout the else-branch of the loop
unconditionally opens a replacement session before the loop guard is
re-examined. -/
theorem claimC4_session_count_cex :
    openCount (runClient allTimeout allOpensOk [1] 1 1).trace = 2 ∧
    sendCount (runClient allTimeout allOpensOk [1] 1 1).trace = 1 ∧
    (runClient allTimeout allOpensOk [1] 1 1).outcome = LoopEnd.exhausted := by
  constructor
  · decide
  · constructor
    · decide
    · decide

/-- Claim C4 as amended: in a Delivered run the sessions opened equal
the send attempts, and the sessions closed equal the sessions opened;
in an Exhausted run the sessions opened equal the send attempts plus
one (the replacement opened after the final timeout is never used for a
send), and the sessions closed still equal the sessions opened, so no
session is leaked in either case. -/
theorem claimC4_session_count_amended (N k fuel : Nat) (payload reply : List Nat)
    (hf : N ≤ fuel) (hk : 1 ≤ k) (hkN : k ≤ N) :
    (openCount (runClient allTimeout allOpensOk payload (N : Int) fuel).trace =
        sendCount (runClient allTimeout allOpensOk payload (N : Int) fuel).trace + 1 ∧
     closeCount (runClient allTimeout allOpensOk payload (N : Int) fuel).trace =
        openCount (runClient allTimeout allOpensOk payload (N : Int) fuel).trace) ∧
    (openCount (runClient (respondAt k reply) allOpensOk payload (N : Int) fuel).trace =
        sendCount (runClient (respondAt k reply) allOpensOk payload (N : Int) fuel).trace ∧
     closeCount (runClient (respondAt k reply) allOpensOk payload (N : Int) fuel).trace =
        openCount (runClient (respondAt k reply) allOpensOk payload (N : Int) fuel).trace) := by
  have hT := runClient_allTimeout payload N fuel hf
  have hr : ((k : Nat) : Int) ≤ (N : Int) := by exact_mod_cast hkN
  have hS := runClient_respondAt payload reply k fuel (N : Int) hk hr (by omega)
  have hk1 : k - 1 + 1 = k := by omega
  constructor
  · rw [hT]
    constructor
    · simp [openCount_cons, isOpen, openCount_timeoutTrace, sendCount,
            sendSids_cons, sendSid, sendSids_timeoutTrace]
      omega
    · simp [openCount_cons, closeCount_cons, isOpen, isClose,
            openCount_timeoutTrace, closeCount_timeoutTrace]
      omega
  · rw [hS]
    constructor
    · simp [openCount_cons, isOpen, openCount_successTrace, sendCount,
            sendSids_cons, sendSid, sendSids_successTrace, hk1]
      omega
    · simp [openCount_cons, closeCount_cons, isOpen, isClose,
            openCount_successTrace, closeCount_successTrace]
      omega

theorem claimC4_session_count_amended_w :
    (openCount (runClient allTimeout allOpensOk [1] ((2 : Nat) : Int) 2).trace =
        sendCount (runClient allTimeout allOpensOk [1] ((2 : Nat) : Int) 2).trace + 1 ∧
     closeCount (runClient allTimeout allOpensOk [1] ((2 : Nat) : Int) 2).trace =
        openCount (runClient allTimeout allOpensOk [1] ((2 : Nat) : Int) 2).trace) ∧
    (openCount (runClient (respondAt 1 [5]) allOpensOk [1] ((2 : Nat) : Int) 2).trace =
        sendCount (runClient (respondAt 1 [5]) allOpensOk [1] ((2 : Nat) : Int) 2).trace ∧
     closeCount (runClient (respondAt 1 [5]) allOpensOk [1] ((2 : Nat) : Int) 2).trace =
        openCount (runClient (respondAt 1 [5]) allOpensOk [1] ((2 : Nat) : Int) 2).trace) :=
  claimC4_session_count_amended 2 1 2 [1] [5] (by decide) (by decide) (by decide)

/-- Claim C5, counterexample: the claim says the bytes handed to the
Reply Consumer are exactly the bytes received, including a reply with
embedded NUL bytes.  The clients hand the reply over as a C string
(printf %s / strdup), so the reply 65 0 66 is delivered as just 65,
truncated at the embedded NUL. -/
theorem claimC5_reply_truncation_cex :
    consumerBytes [65, 0, 66] [] = [65] ∧
    consumerBytes [65, 0, 66] [] ≠ [65, 0, 66] := by
  constructor
  · decide
  · decide

/-- Claim C5 as amended: the bytes handed to the Reply Consumer are the
transport buffer read as a NUL-terminated C string, not the exact reply:
a NUL-free reply is delivered exactly when the adjacent transport memory
begins with a NUL byte (which the src variants arrange by storing 0 at
index msg_len; the extra variants store nothing and read on into
whatever follows); a reply containing an embedded NUL is always
truncated at its first NUL and is never delivered intact. -/
theorem claimC5_reply_truncation_amended (reply trailing : List Nat) :
    (0 ∉ reply → trailing.head? = some 0 → consumerBytes reply trailing = reply) ∧
    (0 ∈ reply →
       consumerBytes reply trailing = reply.takeWhile (fun b => b != 0) ∧
       consumerBytes reply trailing ≠ reply) := by
  constructor
  · intro hnm hd
    cases trailing with
    | nil => simp at hd
    | cons a t =>
        have ha : a = 0 := by simpa using hd
        simp only [consumerBytes, takeWhile_append_of_not_mem reply (a :: t) hnm]
        simp [List.takeWhile_cons, ha]
  · intro hm
    constructor
    · simp only [consumerBytes, takeWhile_append_of_mem reply trailing hm]
    · simp only [consumerBytes, takeWhile_append_of_mem reply trailing hm]
      exact takeWhile_ne_self_of_mem reply hm

theorem claimC5_reply_truncation_amended_w :
    consumerBytes [65, 66] [0, 7] = [65, 66] ∧
    (consumerBytes [65, 0] [9] = List.takeWhile (fun b => b != 0) [65, 0] ∧
     consumerBytes [65, 0] [9] ≠ [65, 0]) :=
  ⟨(claimC5_reply_truncation_amended [65, 66] [0, 7]).1 (by decide) (by decide),
   (claimC5_reply_truncation_amended [65, 0] [9]).2 (by decide)⟩

/-- Claim C6: whenever session creation fails, the run aborts
immediately with the fatal outcome.  If the initial `zmq_socket` call
fails the run is exactly the failed open, with no send and the budget
untouched; any run ending fatal has spent budget only on its observed
timeouts (the open failure consumes none), its trace ends at the failed
open (nothing is retried after it), and the fatal exit code EX_PROTOCOL
differs from the exhausted exit code EX_UNAVAILABLE. -/
theorem claimC6_open_failure_is_fatal (env : Nat → PollOutcome) (openOk : Nat → Bool)
    (payload : List Nat) (retries : Int) (fuel : Nat) :
    (openOk 0 = false →
       runClient env openOk payload retries fuel =
         { trace := [Ev.openFailEv 0], left := retries, outcome := LoopEnd.fatalOpen }) ∧
    ((runClient env openOk payload retries fuel).outcome = LoopEnd.fatalOpen →
       (runClient env openOk payload retries fuel).left =
           retries - timeoutCount (runClient env openOk payload retries fuel).trace ∧
       (∃ j tr', (runClient env openOk payload retries fuel).trace =
           tr' ++ [Ev.openFailEv j]) ∧
       vpollerExitCode LoopEnd.fatalOpen ≠ vpollerExitCode LoopEnd.exhausted) := by
  constructor
  · intro h0
    simp [runClient, h0]
  · intro hfat
    refine ⟨runClient_left env openOk payload retries fuel,
            runClient_fatal_shape env openOk payload retries fuel hfat, ?_⟩
    decide

theorem claimC6_open_failure_is_fatal_w :
    (runClient allTimeout noOpensOk [1] 3 1 =
       { trace := [Ev.openFailEv 0], left := 3, outcome := LoopEnd.fatalOpen }) ∧
    ((runClient allTimeout (opensBelow 1) [1] 2 2).left =
         2 - timeoutCount (runClient allTimeout (opensBelow 1) [1] 2 2).trace ∧
     (∃ j tr', (runClient allTimeout (opensBelow 1) [1] 2 2).trace =
         tr' ++ [Ev.openFailEv j]) ∧
     vpollerExitCode LoopEnd.fatalOpen ≠ vpollerExitCode LoopEnd.exhausted) :=
  ⟨(claimC6_open_failure_is_fatal allTimeout noOpensOk [1] 3 1).1 (by decide),
   (claimC6_open_failure_is_fatal allTimeout (opensBelow 1) [1] 2 2).2 (by decide)⟩

/-- Claim C7: throughout every run - any poll environment, any session
creation oracle, any payload, any starting budget and any fuel - the
final value of the C `retries` variable equals the starting value minus
the number of observed timeouts in the trace: the budget is decremented
exactly once per observed timeout and never on a successful receive, a
failed receive after a readable poll, or a failed session creation. -/
theorem claimC7_budget_decrement_invariant (env : Nat → PollOutcome)
    (openOk : Nat → Bool) (payload : List Nat) (retries : Int) (fuel : Nat) :
    (runClient env openOk payload retries fuel).left =
      retries - timeoutCount (runClient env openOk payload retries fuel).trace :=
  runClient_left env openOk payload retries fuel

/-- Claim C8, counterexample: the claim says a run that ends Exhausted
is reported to the caller differently from a run that ends Delivered.
In src/src/vpoller-cclient/vmpoller-cclient.c the `rc` variable is never
assigned on the no-reply path, so the exhausted run (retries 1, server
never responds) exits with the same code EX_OK as a delivered run. -/
theorem claimC8_vmpoller_exit_cex :
    vmpollerExitCode (runClient allTimeout allOpensOk [1] 1 1).outcome =
      vmpollerExitCode (runClient (respondAt 1 [65]) allOpensOk [1] 1 1).outcome ∧
    (runClient allTimeout allOpensOk [1] 1 1).outcome = LoopEnd.exhausted ∧
    (runClient (respondAt 1 [65]) allOpensOk [1] 1 1).outcome =
      LoopEnd.delivered [65] := by
  constructor
  · decide
  · constructor
    · decide
    · decide

/-- Claim C8 as amended: every terminated run ends in exactly one of
Delivered, Exhausted or fatal.  The vpoller-cclient variants distinguish
all three outcomes by process exit code (EX_OK, EX_UNAVAILABLE,
EX_PROTOCOL) and the Zabbix modules distinguish Delivered from the other
two by agent result code; but in src/src/vpoller-cclient/vmpoller-cclient.c
an Exhausted run exits with EX_OK, the same exit code as a Delivered
run - there only the printed text differs. -/
theorem claimC8_outcome_surface_amended (env : Nat → PollOutcome)
    (openOk : Nat → Bool) (payload : List Nat) (retries : Int) (fuel : Nat)
    (h : (runClient env openOk payload retries fuel).outcome ≠ LoopEnd.fuelOut) :
    ((∃ reply, (runClient env openOk payload retries fuel).outcome =
        LoopEnd.delivered reply) ∨
     (runClient env openOk payload retries fuel).outcome = LoopEnd.exhausted ∨
     (runClient env openOk payload retries fuel).outcome = LoopEnd.fatalOpen) ∧
    (∀ reply, vpollerExitCode (LoopEnd.delivered reply) ≠
        vpollerExitCode LoopEnd.exhausted ∧
      vpollerExitCode (LoopEnd.delivered reply) ≠ vpollerExitCode LoopEnd.fatalOpen ∧
      vpollerExitCode LoopEnd.exhausted ≠ vpollerExitCode LoopEnd.fatalOpen) ∧
    (∀ reply, zabbixRetCode (LoopEnd.delivered reply) ≠
        zabbixRetCode LoopEnd.exhausted) ∧
    (∀ reply, vmpollerExitCode (LoopEnd.delivered reply) =
        vmpollerExitCode LoopEnd.exhausted) := by
  refine ⟨?_, ?_, ?_, ?_⟩
  · cases hout : (runClient env openOk payload retries fuel).outcome with
    | delivered reply => exact Or.inl ⟨reply, rfl⟩
    | exhausted => exact Or.inr (Or.inl rfl)
    | fatalOpen => exact Or.inr (Or.inr rfl)
    | fuelOut => exact absurd hout h
  · intro reply
    refine ⟨?_, ?_, ?_⟩ <;>
      simp [vpollerExitCode, EX_OK, EX_UNAVAILABLE, EX_PROTOCOL]
  · intro reply
    simp [zabbixRetCode, SYSINFO_RET_OK, SYSINFO_RET_FAIL]
  · intro reply
    rfl

theorem claimC8_outcome_surface_amended_w :
    ((∃ reply, (runClient allTimeout allOpensOk [1] 1 1).outcome =
        LoopEnd.delivered reply) ∨
     (runClient allTimeout allOpensOk [1] 1 1).outcome = LoopEnd.exhausted ∨
     (runClient allTimeout allOpensOk [1] 1 1).outcome = LoopEnd.fatalOpen) ∧
    (∀ reply, vpollerExitCode (LoopEnd.delivered reply) ≠
        vpollerExitCode LoopEnd.exhausted ∧
      vpollerExitCode (LoopEnd.delivered reply) ≠ vpollerExitCode LoopEnd.fatalOpen ∧
      vpollerExitCode LoopEnd.exhausted ≠ vpollerExitCode LoopEnd.fatalOpen) ∧
    (∀ reply, zabbixRetCode (LoopEnd.delivered reply) ≠
        zabbixRetCode LoopEnd.exhausted) ∧
    (∀ reply, vmpollerExitCode (LoopEnd.delivered reply) =
        vmpollerExitCode LoopEnd.exhausted) :=
  claimC8_outcome_surface_amended allTimeout allOpensOk [1] 1 1 (by decide)

/-- Claim C9, counterexample: the claim says the controller validates
that the retry budget is positive before opening a session, and that a
run never opens a session and then performs zero send attempts because
of a non-positive budget.  No such validation exists: with retries = 0
the run opens (and then closes) session 0, performs zero sends, and ends
with the no-reply outcome. -/
theorem claimC9_no_budget_validation_cex :
    (runClient allTimeout allOpensOk [1] 0 5).trace = [Ev.openEv 0, Ev.closeEv 0] ∧
    openCount (runClient allTimeout allOpensOk [1] 0 5).trace = 1 ∧
    sendCount (runClient allTimeout allOpensOk [1] 0 5).trace = 0 ∧
    (runClient allTimeout allOpensOk [1] 0 5).outcome = LoopEnd.exhausted := by
  refine ⟨by decide, by decide, by decide, by decide⟩

/-- Claim C9 as amended: the only budget check is the loop guard
`while (retries > 0)`, evaluated after the session is already opened;
for any non-positive retry budget the run opens exactly one session,
performs zero send attempts, closes that session and reports the
no-reply (Exhausted) outcome, regardless of the environment. -/
theorem claimC9_no_budget_validation_amended (env : Nat → PollOutcome)
    (openOk : Nat → Bool) (payload : List Nat) (retries : Int) (fuel : Nat)
    (hr : retries ≤ 0) (ho : openOk 0 = true) :
    runClient env openOk payload retries fuel =
      { trace := [Ev.openEv 0, Ev.closeEv 0], left := retries,
        outcome := LoopEnd.exhausted } := by
  have hneg : ¬ (0 : Int) < retries := by omega
  cases fuel with
  | zero => simp [runClient, ho, lazyLoop, hneg]
  | succ f => simp [runClient, ho, lazyLoop, hneg]

theorem claimC9_no_budget_validation_amended_w :
    runClient allTimeout allOpensOk [3] 0 2 =
      { trace := [Ev.openEv 0, Ev.closeEv 0], left := 0,
        outcome := LoopEnd.exhausted } :=
  claimC9_no_budget_validation_amended allTimeout allOpensOk [3] 0 2
    (by decide) (by decide)

/-- Claim C10: in the src variants, on every successful receive the
pointer that was just set by malloc is overwritten with the pointer
into transport-owned message memory before any byte of the reply is
copied into the allocation (the allocated buffer's bytes are all still
unwritten), a NUL is then stored at index msg_len of the transport
buffer (one past the reply, clobbering the first adjacent byte), and
the allocated buffer is never freed: the delivered reply aliases
transport-owned memory and the allocation is leaked. -/
theorem claimC10_recv_buffer_alias_and_leak (reply adjacent : List Nat)
    (h : adjacent ≠ []) :
    (recvHandleSrc reply adjacent).result = Ptr.msgDataPtr ∧
    (recvHandleSrc reply adjacent).heap =
      [(0, List.replicate (reply.length + 1) none)] ∧
    (recvHandleSrc reply adjacent).freedIds = [] ∧
    (recvHandleSrc reply adjacent).msgMem = reply ++ 0 :: adjacent.tail ∧
    (recvHandleSrc reply adjacent).msgMem.take reply.length = reply := by
  obtain ⟨a, t, rfl⟩ := List.exists_cons_of_ne_nil h
  refine ⟨rfl, rfl, rfl, ?_, ?_⟩
  · simp [recvHandleSrc, mallocStep, msgDataStep, storeByte,
          set_at_append_boundary]
  · simp [recvHandleSrc, mallocStep, msgDataStep, storeByte,
          set_at_append_boundary]

theorem claimC10_recv_buffer_alias_and_leak_w :
    (recvHandleSrc [65] [7, 7]).result = Ptr.msgDataPtr ∧
    (recvHandleSrc [65] [7, 7]).heap = [(0, List.replicate (1 + 1) none)] ∧
    (recvHandleSrc [65] [7, 7]).freedIds = [] ∧
    (recvHandleSrc [65] [7, 7]).msgMem = [65] ++ 0 :: [7, 7].tail ∧
    (recvHandleSrc [65] [7, 7]).msgMem.take 1 = [65] := by
  have h := claimC10_recv_buffer_alias_and_leak [65] [7, 7] (by decide)
  simpa using h
